import Mathlib

/-!
Verification development for the game-recommendation-engine backend
(`backend/app`): a shallow embedding, in Lean 4, of the resolution and
enrichment pipeline — title normalisation, Steam-field merging, price
filtering and response wrapping (`services/aggregator.py`,
`utils/aggregator_helpers.py`, `models/provider_response.py`), the
structured-filter model and its validators (`models/game_filter.py`),
the deterministic constraint extraction and term resolution of the
natural-language query parser (`utils/nl_parser_helpers.py`,
`services/nl_query_parser.py`, `caches/rawg_cache_mapping.py`), and the
vocabulary metadata cache refresh logic
(`caches/rawg_metadata_cache.py`).

Python machine-level conventions used throughout the embedding:
* `float` prices are modelled as `Rat`; all prices appearing in the
  program are small decimal fractions, and every comparison the code
  performs (`<`, `<=`, `== 0`) is exact on such values, so rational
  arithmetic agrees with IEEE-754 double arithmetic on the modelled
  domain.  `float("inf")` is modelled by `none` in an `Option Rat` used
  as an upper bound.
* Python truthiness is embedded per type: a string is truthy iff
  non-empty, a tuple/list iff non-empty, `None` is falsy, numbers are
  truthy iff non-zero, and `date`/URL objects are always truthy.
* Fallible operations return `Except`; an exception that escapes a
  Python method before any attribute assignment is modelled as an
  `Except.error` result that leaves the (explicitly threaded) state
  unchanged, mirroring the statement order of the source.
* `datetime.date` values are modelled as `PyDate` triples; the code
  never does date arithmetic, only construction and equality.
-/

namespace GameRec

/-- Model of `datetime.date`: the code only constructs dates and passes
them around (no arithmetic), so a year/month/day triple suffices. -/
structure PyDate where
  year : Nat
  month : Nat
  day : Nat
deriving DecidableEq, Repr

/-- Model of `models/game_info.py` `GameInfo`.  `Optional[Tuple[str]]`
fields default to the empty tuple and the aggregator only ever tests
their truthiness, so they are modelled as plain lists (where `[]` plays
the role of both the empty tuple and `None`).  `HttpUrl` values are
modelled as strings; pydantic guarantees they are non-empty, and Python
object truthiness makes them truthy whenever present. -/
structure GameInfo where
  id : String
  name : String
  description : Option String
  release_date : Option PyDate
  developers : List String
  publishers : List String
  genres : List String
  platforms : List String
  screenshots : List String
  price : Option Rat
  store_url : Option String
deriving DecidableEq, Repr

/-- Python `a or b` for strings: `a` unless it is empty/falsy. -/
def pyOrStr (a b : String) : String :=
  if a = "" then b else a

/-- Python `a or b` for `Optional[str]`: `a` unless it is `None` or empty. -/
def pyOrOptStr (a b : Option String) : Option String :=
  match a with
  | none => b
  | some s => if s = "" then b else some s

/-- Python `a or b` for tuples/lists: `a` unless it is empty. -/
def pyOrList (a b : List String) : List String :=
  if a = [] then b else a

/-- Python `a or b` (and `a if a is not None else b`) for optional values
whose payload is always truthy (dates, URLs, and the explicit
`is not None` test used for prices). -/
def pyOrOpt {α : Type} (a b : Option α) : Option α :=
  match a with
  | none => b
  | some v => some v

/-- The field-merge block of `GameAggregator.aggregate.enrich_with_steam`
(`services/aggregator.py` lines 80–91): each field of the RAWG (catalog)
record is overwritten with the Steam (storefront) value via Python `or`
(truthiness), except `price`, which uses an explicit `is not None` test.

```
game.name = steam_game.name or game.name
game.description = steam_game.description or game.description
game.release_date = steam_game.release_date or game.release_date
game.platforms = steam_game.platforms or game.platforms
game.genres = steam_game.genres or game.genres
game.developers = steam_game.developers or game.developers
game.publishers = steam_game.publishers or game.publishers
game.screenshots = steam_game.screenshots or game.screenshots
game.price = steam_game.price if steam_game.price is not None else game.price
game.store_url = steam_game.store_url or game.store_url
```
-/
def mergeFields (game steam_game : GameInfo) : GameInfo :=
  { game with
    name := pyOrStr steam_game.name game.name
    description := pyOrOptStr steam_game.description game.description
    release_date := pyOrOpt steam_game.release_date game.release_date
    platforms := pyOrList steam_game.platforms game.platforms
    genres := pyOrList steam_game.genres game.genres
    developers := pyOrList steam_game.developers game.developers
    publishers := pyOrList steam_game.publishers game.publishers
    screenshots := pyOrList steam_game.screenshots game.screenshots
    price := pyOrOpt steam_game.price game.price
    store_url := pyOrOpt steam_game.store_url game.store_url }

/-- The Free-To-Play injection following the merge block
(`services/aggregator.py` lines 93–95):
`if game.price == 0.0 and "Free To Play" not in game.genres:
game.genres += ("Free To Play",)`. -/
def freeToPlayInject (game : GameInfo) : GameInfo :=
  if game.price = some 0 ∧ "Free To Play" ∉ game.genres then
    { game with genres := game.genres ++ ["Free To Play"] }
  else game

/-! ### Title normalisation (`utils/aggregator_helpers.py` `normalise_title`) -/

/-- Python regex `\w` over the ASCII range (all characters reaching the
punctuation pass are ASCII, since the accent-stripping pass has already
dropped everything else). -/
def isWordChar (c : Char) : Bool :=
  c.isAlphanum || c = '_'

/-- Decomposition table modelling `unicodedata.normalize("NFKD", ·)`
followed by `.encode("ascii","ignore")` and `.lower()` on the Latin-1
accented letters (the only non-ASCII characters exercised here): each
maps to its lowercase ASCII base letter. -/
def accentPairs : List (Char × Char) :=
  [('á','a'),('à','a'),('â','a'),('ä','a'),('ã','a'),('å','a'),
   ('Á','a'),('À','a'),('Â','a'),('Ä','a'),('Ã','a'),('Å','a'),
   ('é','e'),('è','e'),('ê','e'),('ë','e'),
   ('É','e'),('È','e'),('Ê','e'),('Ë','e'),
   ('í','i'),('ì','i'),('î','i'),('ï','i'),
   ('Í','i'),('Ì','i'),('Î','i'),('Ï','i'),
   ('ó','o'),('ò','o'),('ô','o'),('ö','o'),('õ','o'),
   ('Ó','o'),('Ò','o'),('Ô','o'),('Ö','o'),('Õ','o'),
   ('ú','u'),('ù','u'),('û','u'),('ü','u'),
   ('Ú','u'),('Ù','u'),('Û','u'),('Ü','u'),
   ('ñ','n'),('Ñ','n'),('ç','c'),('Ç','c'),('ý','y'),('Ý','y')]

/-- One character of
`unicodedata.normalize("NFKD", title).encode("ascii","ignore").decode("utf-8").lower()`:
ASCII characters are lowercased and kept, table-listed accented letters
fold to their base letter, all other non-ASCII characters are dropped by
the `"ignore"` ASCII encoding. -/
def foldChar (c : Char) : List Char :=
  if c.toNat < 128 then [c.toLower]
  else
    match (accentPairs.find? (fun p => p.1 = c)) with
    | some p => [p.2]
    | none => []

/-- The lowercase/accent-strip pass of `normalise_title`. -/
def asciiFoldLower (l : List Char) : List Char :=
  l.flatMap foldChar

/-- Literal list match at the head of a character list. -/
def listStartsWith : List Char → List Char → Bool
  | [], _ => true
  | _ :: _, [] => false
  | p :: ps, c :: cs => p = c && listStartsWith ps cs

/-- `re.sub(r"\b<pat>\b", "", text)` for a fixed word/phrase `pat`
(first character and last character of every pattern used are word
characters, so `\b` holds exactly when the neighbouring original
character is absent or a non-word character).  `prevWord` records
whether the character preceding the current position in the *original*
string is a word character, which is what Python's regex engine
consults; after a removed occurrence the preceding original character
is the last character of the pattern (a word character). -/
def subPatGo (p : Char) (ps : List Char) : Nat → Bool → List Char → List Char
  | 0, _, l => l
  | _ + 1, _, [] => []
  | fuel + 1, prevWord, c :: rest =>
    if !prevWord && listStartsWith (p :: ps) (c :: rest)
        && (match (c :: rest).drop (ps.length + 1) with
            | [] => true
            | d :: _ => !isWordChar d) then
      subPatGo p ps fuel true ((c :: rest).drop (ps.length + 1))
    else
      c :: subPatGo p ps fuel (isWordChar c) rest

/-- `re.sub(r"\b<pat>\b", "", text)` on the whole text.  The fuel
argument of `subPatGo` bounds the number of scanning steps; every step
consumes at least one character, so `text.length` steps always suffice
and the fuel-exhausted branch is unreachable. -/
def subPat (pat : String) (text : List Char) : List Char :=
  match pat.toList with
  | [] => text
  | p :: ps => subPatGo p ps text.length false text

/-- The edition/variant patterns stripped by `normalise_title`, in
source order. -/
def editionPatterns : List String :=
  ["pc edition", "vr edition", "game of the year", "goty",
   "remastered", "definitive edition", "complete edition",
   "ultimate edition"]

/-- `re.sub(r"[^\w\s]", " ", text)`: every character that is neither a
word character nor whitespace becomes a space. -/
def punctToSpace (l : List Char) : List Char :=
  l.map (fun c => if isWordChar c || c.isWhitespace then c else ' ')

/-- `re.sub(r"\s+", " ", text).strip()`, one pass: `pendingSpace` is
true when a whitespace run has been seen since the last emitted
character (leading whitespace is dropped by the wrapper, trailing
whitespace never gets its pending space emitted). -/
def collapseGo (pendingSpace : Bool) : List Char → List Char
  | [] => []
  | c :: rest =>
    if c.isWhitespace then collapseGo true rest
    else (if pendingSpace then [' ', c] else [c]) ++ collapseGo false rest

/-- `re.sub(r"\s+", " ", text).strip()`. -/
def collapseWs (l : List Char) : List Char :=
  collapseGo false (l.dropWhile Char.isWhitespace)

/-- `utils/aggregator_helpers.py` `normalise_title`: lowercase and strip
accents, remove the edition patterns (each with `\b` boundaries, applied
in source order), replace punctuation by spaces, collapse whitespace and
strip. -/
def normalise_title (title : String) : String :=
  let t1 := asciiFoldLower title.toList
  let t2 := editionPatterns.foldl (fun acc pat => subPat pat acc) t1
  let t3 := punctToSpace t2
  String.mk (collapseWs t3)

/-! ### Fuzzy matching (`difflib.get_close_matches`, used by the
aggregator with cutoff 0.6 and by the term resolver with cutoff 0.85) -/

/-- Length of the longest common prefix of two character lists. -/
def commonPrefixLen : List Char → List Char → Nat
  | a :: as, b :: bs => if a = b then commonPrefixLen as bs + 1 else 0
  | _, _ => 0

/-- `difflib.SequenceMatcher.find_longest_match` over the whole
sequences (no junk; the strings handled here are far below the
200-character autojunk threshold): among all maximal matching blocks,
the one starting earliest in `a`, and among those the one starting
earliest in `b` — realised by an ascending scan that only replaces the
incumbent on a strictly longer match. -/
def findLongestMatch (a b : List Char) : Nat × Nat × Nat :=
  (List.range a.length).foldl
    (fun best i =>
      (List.range b.length).foldl
        (fun best j =>
          let k := commonPrefixLen (a.drop i) (b.drop j)
          if k > best.2.2 then (i, j, k) else best)
        best)
    (0, 0, 0)

/-- Total size of the matching blocks of
`difflib.SequenceMatcher.get_matching_blocks`: recursively split around
the longest match.  Each recursion level strictly shrinks the window,
so `a.length + b.length + 1` fuel steps always suffice. -/
def matchingTotalFuel : Nat → List Char → List Char → Nat
  | 0, _, _ => 0
  | fuel + 1, a, b =>
    let (i, j, k) := findLongestMatch a b
    if k = 0 then 0
    else
      matchingTotalFuel fuel (a.take i) (b.take j) + k +
        matchingTotalFuel fuel (a.drop (i + k)) (b.drop (j + k))

/-- `M` in `SequenceMatcher.ratio() = 2*M / T`. -/
def matchingTotal (a b : List Char) : Nat :=
  matchingTotalFuel (a.length + b.length + 1) a b

/-- `SequenceMatcher(None, a, b).ratio()` as an exact rational:
`2*M/T`, and 1.0 when both sequences are empty.  The cutoffs 0.6 and
0.85 are likewise represented exactly; for the short strings compared
here `2*M/T` can only agree with the cutoff's binary-float neighbourhood
by being exactly equal to it, so the rational comparison coincides with
Python's float comparison. -/
def seqRatio (a b : List Char) : Rat :=
  let t := a.length + b.length
  if t = 0 then 1 else mkRat (2 * matchingTotal a b) t

/-- `difflib.get_close_matches(word, possibilities, n=1, cutoff)`:
keep the possibilities whose ratio against `word` reaches the cutoff
(the `real_quick_ratio`/`quick_ratio` tests are upper bounds of `ratio`
and filter nothing more) and return the best one — `heapq.nlargest` is
stable, so ties keep the earliest possibility.  `get_close_matches`
builds each `SequenceMatcher` with the possibility as sequence 1 and
`word` as sequence 2. -/
def getCloseMatches1 (word : String) (possibilities : List String) (cutoff : Rat) :
    Option String :=
  (possibilities.foldl
    (fun best x =>
      let r := seqRatio x.toList word.toList
      if r ≥ cutoff then
        match best with
        | none => some (x, r)
        | some (_, br) => if r > br then some (x, r) else best
      else best)
    none).map (fun p => p.1)

/-- Python `str.lower()`, modelled character-wise (the strings handled
here are ASCII after extraction; kernel-reducible, unlike the built-in
byte-level `String.toLower`). -/
def pyLower (s : String) : String :=
  String.mk (s.toList.map Char.toLower)

/-- Python `str.strip()`: drop leading and trailing whitespace. -/
def pyStrip (s : String) : String :=
  String.mk (((s.toList.dropWhile Char.isWhitespace).reverse.dropWhile
    Char.isWhitespace).reverse)

/-! ### Structured filter (`models/game_filter.py`) -/

/-- Model of `models/game_filter.py` `GameFilter` — its fields are
exactly `query`, `min_price`, `max_price`, `currency`, `platforms`,
`tags`, `release_date_from`, `release_date_to` (there is no genres
field). -/
structure GameFilter where
  query : Option String
  min_price : Option Rat
  max_price : Option Rat
  currency : Option String
  platforms : List String
  tags : List String
  release_date_from : Option PyDate
  release_date_to : Option PyDate
deriving DecidableEq, Repr

/-- Outcome of a failed pydantic model construction: `typeError` models
a `TypeError` escaping a validator (pydantic v2 only converts
`ValueError`/`AssertionError` into a `ValidationError`),
`validationError` models a pydantic `ValidationError`. -/
inductive PyError where
  | typeError
  | validationError
deriving DecidableEq, Repr

/-- Insert into a sorted duplicate-free list of strings (Python
code-point order, which `String.lt` mirrors). -/
def sortedInsert (x : String) : List String → List String
  | [] => [x]
  | y :: ys =>
    if x = y then y :: ys
    else if x < y then x :: y :: ys
    else y :: sortedInsert x ys

/-- Python `sorted(set(l))` for strings. -/
def pySortedSet (l : List String) : List String :=
  l.foldl (fun acc x => sortedInsert x acc) []

/-- The `normalize_list` before-validator on `tags`/`platforms`:
`if not v: return []` then `sorted({t.strip().lower() for t in v if t})`
(membership test `if t` precedes the strip, so whitespace-only entries
survive as `""`). -/
def normalize_list (v : List String) : List String :=
  if v = [] then []
  else pySortedSet ((v.filter (fun t => t ≠ "")).map (fun t => pyLower (pyStrip t)))

/-- The `non_negative` after-validator on `min_price`/`max_price`:
`if v < 0: raise ValueError(...)`.  It receives the field value even
when that value is `None` (the field is `Optional[float]`), and Python
evaluates `None < 0` by raising `TypeError`. -/
def non_negative : Option Rat → Except PyError (Option Rat)
  | none => .error .typeError
  | some v => if v < 0 then .error .validationError else .ok (some v)

/-- Pydantic v2 construction of a `GameFilter`.

Arguments `min_price?`/`max_price?` distinguish an omitted keyword
(`none`, pydantic applies the default `None` without running
validators) from an explicitly passed value (`some v`, validators run —
including on an explicit `None`).  `query` is passed through unvalidated,
`currency` is never passed by the code under study and keeps its default
`"USD"`, the `empty_str_to_none` before-validator on the date fields is
the identity on actual date/None values, and `platforms`/`tags` (always
passed by the callers modelled here) go through `normalize_list`.

Field order follows the declaration order (`query`, `min_price`,
`max_price`, …).  A `TypeError` raised in a validator aborts
construction immediately; `ValueError`s are collected and surface as a
single `ValidationError` at the end.  The `max_ge_min` after-validator
on `max_price` runs after `non_negative` and consults `info.data`,
which contains `min_price` (its validated value, or the default `None`
when the keyword was omitted) unless `min_price`'s own validation
failed; comparing a number against a `None` in `info.data` is again a
Python `TypeError`. -/
def mkGameFilter (query : Option String) (min_price? max_price? : Option (Option Rat))
    (platforms tags : List String) (rdf rdt : Option PyDate) :
    Except PyError GameFilter :=
  let minRes : Except PyError (Option Rat) :=
    match min_price? with
    | none => .ok none
    | some v => non_negative v
  match minRes with
  | .error .typeError => .error .typeError
  | _ =>
    let maxRes : Except PyError (Option Rat) :=
      match max_price? with
      | none => .ok none
      | some v =>
        match non_negative v with
        | .error e => .error e
        | .ok v' =>
          match minRes with
          | .error _ => .ok v'
          | .ok m =>
            match v', m with
            | some w, some mv =>
              if w < mv then .error .validationError else .ok (some w)
            | some _, none => .error .typeError
            | none, _ => .ok none
    match maxRes with
    | .error .typeError => .error .typeError
    | _ =>
      match minRes, maxRes with
      | .error _, _ => .error .validationError
      | _, .error _ => .error .validationError
      | .ok m, .ok mx =>
        .ok { query := query
              min_price := m
              max_price := mx
              currency := some "USD"
              platforms := normalize_list platforms
              tags := normalize_list tags
              release_date_from := rdf
              release_date_to := rdt }

/-! ### Response wrapper (`models/provider_response.py`) and the
aggregator (`services/aggregator.py`) -/

/-- Model of `models/provider_response.py` `ProviderResponse`: `limit`,
`page` and `total_pages` are `Optional[int]` defaulting to `None`. -/
structure ProviderResponse where
  results : List GameInfo
  total : Nat
  limit : Option Int
  page : Option Int
  total_pages : Option Nat
deriving DecidableEq, Repr

/-- `math.ceil(total / limit)` for `limit > 0` (exact on the modelled
integer domain). -/
def pyCeilDiv (total limit : Nat) : Nat :=
  (total + limit - 1) / limit

/-- `ProviderResponse.create`: `total_pages = math.ceil(total / limit)
if limit and limit > 0 else 1` (for an `int`, `limit and limit > 0` is
truthy-and, equivalent to `0 < limit`). -/
def ProviderResponse.create (results : List GameInfo) (total : Nat)
    (limit : Int) (page : Int) : ProviderResponse :=
  { results := results
    total := total
    limit := some limit
    page := some page
    total_pages := some (if 0 < limit then pyCeilDiv total limit.toNat else 1) }

/-- `min_price = filters.min_price or 0` — Python `or` on a float:
`None` and `0.0` are both falsy, so the effective lower bound is `0` in
either case. -/
def effectiveMin (filters : GameFilter) : Rat :=
  match filters.min_price with
  | none => 0
  | some v => if v = 0 then 0 else v

/-- `max_price = filters.max_price or float("inf")` — `None` and `0.0`
are falsy, so both collapse to no upper bound (`none` models
`float("inf")`). -/
def effectiveMax (filters : GameFilter) : Option Rat :=
  match filters.max_price with
  | none => none
  | some v => if v = 0 then none else some v

/-- The per-record predicate of the post-merge price filter:
`g.price is None or (min_price <= g.price <= max_price)`. -/
def priceKeep (filters : GameFilter) (g : GameInfo) : Bool :=
  match g.price with
  | none => true
  | some p =>
    decide (effectiveMin filters ≤ p) &&
      (match effectiveMax filters with
       | none => true
       | some m => decide (p ≤ m))

/-- Step 3 of `GameAggregator.aggregate`: keep the enriched games whose
price is `None` or inside the effective bounds. -/
def priceFilter (filters : GameFilter) (games : List GameInfo) : List GameInfo :=
  games.filter (priceKeep filters)

/-- `GameAggregator.aggregate.enrich_with_steam` for one RAWG game,
given the Steam search results for the normalised title (an
`httpx.HTTPError` during the Steam call is caught and the game returned
un-enriched, which coincides with the empty-result case): fuzzy-match
the normalised names with cutoff 0.6, and on a match merge fields and
inject the Free-To-Play genre. -/
def enrichWithSteam (steamResults : List GameInfo) (game : GameInfo) : GameInfo :=
  if steamResults.isEmpty then game
  else
    let rawg_name := normalise_title game.name
    let steam_names := steamResults.map (fun s => normalise_title s.name)
    match getCloseMatches1 rawg_name steam_names (mkRat 3 5) with
    | none => game
    | some matchName =>
      match steamResults.find? (fun s => normalise_title s.name == matchName) with
      | none => game
      | some steam_game => freeToPlayInject (mergeFields game steam_game)

/-- `GameAggregator.aggregate`: the RAWG search (its `offset =
(page-1)*limit` pagination included) is an external call modelled by
`rawgGames`; the Steam provider is modelled by `steamSearch`, mapping a
normalised title to its search results.  Each RAWG record is enriched,
the price filter is applied, and the survivors are wrapped in
`ProviderResponse(results=filtered_games, total=len(filtered_games))` —
`limit`, `page` and `total_pages` are not passed and keep their `None`
defaults. -/
def aggregate (filters : GameFilter) (limit page : Nat)
    (rawgGames : List GameInfo) (steamSearch : String → List GameInfo) :
    ProviderResponse :=
  let _offset := (page - 1) * limit
  let enriched := rawgGames.map
    (fun g => enrichWithSteam (steamSearch (normalise_title g.name)) g)
  let filtered := priceFilter filters enriched
  { results := filtered
    total := filtered.length
    limit := none
    page := none
    total_pages := none }

/-! ### Deterministic constraint extraction
(`utils/nl_parser_helpers.py` `preprocess_constraints` and
`filter_constraints_from_values`) -/

/-- Lowercasing used to model `re.I` matching: literal alternatives are
matched against the lowercased text (digits and `$` are unaffected). -/
def lowerList (l : List Char) : List Char :=
  l.map Char.toLower

/-- `\s*`: greedy whitespace skip (the patterns' subsequent atoms never
match whitespace, so backtracking into the run can never help). -/
def skipWs (l : List Char) : List Char :=
  l.dropWhile Char.isWhitespace

/-- `\$?`: optional dollar sign. -/
def skipDollar : List Char → List Char
  | '$' :: rest => rest
  | l => l

/-- Greedy `\d+` split: the maximal leading digit run and the rest. -/
def takeDigits (l : List Char) : List Char × List Char :=
  (l.takeWhile Char.isDigit, l.dropWhile Char.isDigit)

/-- Numeric value of a digit run. -/
def digitsToNat (ds : List Char) : Nat :=
  ds.foldl (fun n c => n * 10 + (c.toNat - '0'.toNat)) 0

/-- Leftmost-match regex search: try the position-anchored matcher at
every position, left to right (the final, empty position can never
start any of the patterns used here, which all need at least one
character). -/
def searchPos {α : Type} (f : List Char → Option α) : List Char → Option α
  | [] => f []
  | c :: rest =>
    match f (c :: rest) with
    | some x => some x
    | none => searchPos f rest

/-- `<lit>\s*\$?(\d+)` anchored at the current position, for one
literal alternative already consumed: the tail after the literal. -/
def priceTail (rest : List Char) : Option Nat :=
  let (ds, _) := takeDigits (skipDollar (skipWs rest))
  if ds = [] then none else some (digitsToNat ds)

/-- Anchored `(?:alt1|alt2|…)\s*\$?(\d+)`: alternatives tried in
pattern order. -/
def altsPriceAt (alts : List String) (suffix : List Char) : Option Nat :=
  alts.findSome? (fun alt =>
    if listStartsWith alt.toList suffix then priceTail (suffix.drop alt.length)
    else none)

/-- `re.search(r"(?:…)\s*\$?(\d+)", input, re.I)`, returning the
captured number. -/
def searchPrice (alts : List String) (l : List Char) : Option Nat :=
  searchPos (altsPriceAt alts) l

/-- `(\d{4})` anchored: exactly four digits (further digits need not be
checked — `\d{4}` has no trailing boundary in these patterns). -/
def fourDigits (l : List Char) : Option Nat :=
  let ds := l.take 4
  if ds.length = 4 && ds.all Char.isDigit then some (digitsToNat ds) else none

/-- Anchored `(?:alt1|alt2)\s*(\d{4})`. -/
def altsYearAt (alts : List String) (suffix : List Char) : Option Nat :=
  alts.findSome? (fun alt =>
    if listStartsWith alt.toList suffix then fourDigits (skipWs (suffix.drop alt.length))
    else none)

/-- `re.search(r"(?:…)\s*(\d{4})", input, re.I)`. -/
def searchYear (alts : List String) (l : List Char) : Option Nat :=
  searchPos (altsYearAt alts) l

/-- Anchored `between\s*\$?(\d+)\s*and\s*\$?(\d+)` (greedy digit runs:
`and` cannot match inside a digit run, so only the maximal runs can
succeed). -/
def betweenPricesAt (suffix : List Char) : Option (Nat × Nat) :=
  if listStartsWith "between".toList suffix then
    let r1 := skipDollar (skipWs (suffix.drop 7))
    let (d1, r2) := takeDigits r1
    if d1 = [] then none
    else
      let r3 := skipWs r2
      if listStartsWith "and".toList r3 then
        let r4 := skipDollar (skipWs (r3.drop 3))
        let (d2, _) := takeDigits r4
        if d2 = [] then none else some (digitsToNat d1, digitsToNat d2)
      else none
  else none

/-- Anchored `between\s*(\d{4})\s*and\s*(\d{4})`.  The first `\d{4}`
must not be followed by a fifth digit: with more digits present, `\s*`
matches the empty string and `and` fails on a digit, with no way to
backtrack into `\d{4}`. -/
def betweenYearsAt (suffix : List Char) : Option (Nat × Nat) :=
  if listStartsWith "between".toList suffix then
    let r1 := skipWs (suffix.drop 7)
    match fourDigits r1 with
    | none => none
    | some y1 =>
      match r1.drop 4 with
      | r2 =>
        if (r2.take 1).all Char.isDigit ∧ r2 ≠ [] then none
        else
          let r3 := skipWs r2
          if listStartsWith "and".toList r3 then
            match fourDigits (skipWs (r3.drop 3)) with
            | none => none
            | some y2 => some (y1, y2)
          else none
  else none

/-- Result dictionary of `preprocess_constraints`. -/
structure Constraints where
  min_price : Option Rat
  max_price : Option Rat
  release_date_from : Option PyDate
  release_date_to : Option PyDate
deriving DecidableEq, Repr

/-- `utils/nl_parser_helpers.py` `preprocess_constraints`: the six
`re.search` patterns applied in source order, later assignments
overwriting earlier ones. -/
def preprocess_constraints (userInput : String) : Constraints :=
  let l := lowerList userInput.toList
  let c0 : Constraints := ⟨none, none, none, none⟩
  let c1 := match searchPrice ["under", "below", "less than"] l with
    | some n => { c0 with max_price := some (n : Rat) }
    | none => c0
  let c2 := match searchPrice ["over", "above", "more than"] l with
    | some n => { c1 with min_price := some (n : Rat) }
    | none => c1
  let c3 := match searchPos betweenPricesAt l with
    | some (a, b) => { c2 with min_price := some (a : Rat), max_price := some (b : Rat) }
    | none => c2
  let c4 := match searchYear ["after", "since"] l with
    | some y => { c3 with release_date_from := some ⟨y, 1, 1⟩ }
    | none => c3
  let c5 := match searchYear ["before", "earlier than"] l with
    | some y => { c4 with release_date_to := some ⟨y - 1, 12, 31⟩ }
    | none => c4
  match searchPos betweenYearsAt l with
  | some (y1, y2) =>
    { c5 with release_date_from := some ⟨y1, 1, 1⟩, release_date_to := some ⟨y2, 12, 31⟩ }
  | none => c5

/-- `\b` between two optional characters (absent = non-word). -/
def boundaryBetween (prev next : Option Char) : Bool :=
  (match prev with | none => false | some c => isWordChar c) !=
    (match next with | none => false | some c => isWordChar c)

/-- The alternation of
`\b(?:under|over|between|less than|more than|\$?\d+|after|since|before|earlier than)\b`
anchored at the current position, `prev` being the preceding original
character. -/
def constraintWordAt (prev : Option Char) (suffix : List Char) : Bool :=
  let lits := ["under", "over", "between", "less than", "more than",
               "after", "since", "before", "earlier than"]
  lits.any (fun lit =>
    boundaryBetween prev suffix.head? &&
      listStartsWith lit.toList suffix &&
      boundaryBetween (lit.toList.getLast?) ((suffix.drop lit.length).head?)) ||
  (boundaryBetween prev suffix.head? &&
    (let (ds, rest) := takeDigits (skipDollar suffix)
     !ds.isEmpty &&
       (match rest.head? with
        | none => true
        | some d => !isWordChar d)))

/-- `re.search` of the constraint-word pattern (case-insensitive). -/
def hasConstraintWordGo (prev : Option Char) : List Char → Bool
  | [] => false
  | c :: rest =>
    constraintWordAt prev (c :: rest) || hasConstraintWordGo (some c) rest

/-- Whether `filter_constraints_from_values`'s pattern matches
somewhere in the value. -/
def hasConstraintWord (v : String) : Bool :=
  hasConstraintWordGo none (lowerList v.toList)

/-- `utils/nl_parser_helpers.py` `filter_constraints_from_values`: keep
the values the constraint pattern does not match. -/
def filter_constraints_from_values (values : List String) : List String :=
  values.filter (fun v => !hasConstraintWord v)

/-! ### Synonym cache (`caches/rawg_cache_mapping.py` `LLMCacheMapper`)
and term resolution (`utils/nl_parser_helpers.py` `resolve_with_llm`)

`resolve_with_llm` is always invoked for one fixed category, so the
synonym cache is modelled as that category's mapping — a Python dict,
i.e. an insertion-ordered association list with update-in-place. -/

/-- Python dict lookup. -/
def dictGet (d : List (String × String)) (k : String) : Option String :=
  match d with
  | [] => none
  | (k', v) :: rest => if k' = k then some v else dictGet rest k

/-- Python dict assignment: overwrite in place or append. -/
def dictSet (d : List (String × String)) (k v : String) : List (String × String) :=
  match d with
  | [] => [(k, v)]
  | (k', v') :: rest =>
    if k' = k then (k, v) :: rest else (k', v') :: dictSet rest k v

/-- Python `dict.keys()` in insertion order. -/
def dictKeys (d : List (String × String)) : List String :=
  d.map (fun p => p.1)

/-- Python `dict.values()` in insertion order. -/
def dictValues (d : List (String × String)) : List String :=
  d.map (fun p => p.2)

/-- `LLMCacheMapper.resolve(category, synonym)`:
`self._mappings.get(category, {}).get(synonym.lower())`. -/
def llmCacheResolve (syn : List (String × String)) (synonym : String) : Option String :=
  dictGet syn (pyLower synonym)

/-- `LLMCacheMapper.add_mapping(category, synonym, canonical)`: stores
under `synonym.lower()` — the raw synonym lowercased but *not*
stripped — and persists synchronously (`self._save()`) before
returning. -/
def llmCacheAddMapping (syn : List (String × String)) (synonym canonical : String) :
    List (String × String) :=
  dictSet syn (pyLower synonym) canonical

/-- One category of the vocabulary metadata as `resolve_with_llm`
destructures it: `(id, name)` pairs (`for _, name in
getattr(metadata_cache, category)`). -/
def sourceDict (vocab : List (Nat × String)) : List (String × String) :=
  vocab.foldl (fun d p => dictSet d (pyLower p.2) p.2) []

/-- `call_llm_for_canonical(category, values, allowed_values)`: if
every value is filtered out as constraint-like, return `None` for each
without invoking the external model; otherwise one external call maps
each value to a canonical name or `null` (a batch failure behaves like
an all-`null` answer).  The external model's answer is abstracted by
`oracle`; the returned flag records whether the external call was
issued. -/
def callLLMForCanonical (values : List String) (oracle : String → Option String) :
    List (String × Option String) × Bool :=
  if filter_constraints_from_values values = [] then
    (values.map (fun v => (v, none)), false)
  else
    (values.map (fun v => (v, oracle v)), true)

/-- `llm_results.get(val)`: `None` both when the key is absent and when
its value is `null`. -/
def llmResultsGet (results : List (String × Option String)) (val : String) :
    Option String :=
  match results with
  | [] => none
  | (k, v) :: rest => if k = val then v else llmResultsGet rest val

/-- Result of `resolve_with_llm`: the `(resolved, leftovers)` pair, the
synonym cache after any write-through, the batch of unknown values
handed to `call_llm_for_canonical` (empty when that step is skipped),
and whether an external canonicalization call was actually issued. -/
structure ResolveResult where
  resolved : List String
  leftovers : List String
  syn : List (String × String)
  llmBatch : List String
  llmCalled : Bool
deriving DecidableEq, Repr

/-- `utils/nl_parser_helpers.py` `resolve_with_llm` for one category.

Per term `val` (with `key = val.lower().strip()`), in order: exact hit
in the vocabulary's lowercased-name dict; truthy hit in the synonym
cache (`elif cached := llm_cache.resolve(category, key)` — a cached
empty string is falsy and falls through); `get_close_matches(key,
source_dict.keys(), n=1, cutoff=0.85)`; otherwise the term joins
`unknown_values`.  The unknown values are batched through
`call_llm_for_canonical`; each canonicalized term is appended to
`resolved` and written through to the synonym cache (keyed on
`val.lower()`, unstripped), the rest become leftovers. -/
def resolve_with_llm (rawValues : List String) (vocab : List (Nat × String))
    (syn : List (String × String)) (oracle : String → Option String) :
    ResolveResult :=
  if rawValues = [] then ⟨[], [], syn, [], false⟩
  else
    let sd := sourceDict vocab
    let classified := rawValues.foldl
      (fun (acc : List String × List String) val =>
        let key := pyStrip (pyLower val)
        match dictGet sd key with
        | some canonical => (acc.1 ++ [canonical], acc.2)
        | none =>
          match llmCacheResolve syn key with
          | some cached =>
            if cached ≠ "" then (acc.1 ++ [cached], acc.2)
            else
              match getCloseMatches1 key (dictKeys sd) (mkRat 17 20) with
              | some m => (acc.1 ++ [(dictGet sd m).getD ""], acc.2)
              | none => (acc.1, acc.2 ++ [val])
          | none =>
            match getCloseMatches1 key (dictKeys sd) (mkRat 17 20) with
            | some m => (acc.1 ++ [(dictGet sd m).getD ""], acc.2)
            | none => (acc.1, acc.2 ++ [val]))
      ([], [])
    let resolved1 := classified.1
    let unknown := classified.2
    if unknown = [] then ⟨resolved1, [], syn, [], false⟩
    else
      let (llmResults, called) := callLLMForCanonical unknown oracle
      let final := unknown.foldl
        (fun (acc : List String × List String × List (String × String)) val =>
          match llmResultsGet llmResults val with
          | none => (acc.1, acc.2.1 ++ [val], acc.2.2)
          | some canonical =>
            (acc.1 ++ [canonical], acc.2.1, llmCacheAddMapping acc.2.2 val canonical))
        (resolved1, [], syn)
      ⟨final.1, final.2.1, final.2.2, unknown, called⟩

/-! ### Vocabulary metadata cache (`caches/rawg_metadata_cache.py`) -/

/-- A vocabulary row as fetched: `(id, slug, name)`. -/
abbrev VocabRow := Nat × String × String

/-- In-memory state of a `RAWGMetadataCache` instance together with the
class-level `_session_refreshed` flag. -/
structure MetaCacheState where
  genres : List VocabRow
  platforms : List VocabRow
  tags : List VocabRow
  sessionRefreshed : Bool
deriving DecidableEq, Repr

/-- The remote RAWG vocabulary endpoints during one refresh: for each
category, either the fetched rows or a raised fetch error
(an `httpx` failure inside `fetch_all_pages`). -/
structure FetchWorld where
  genresFetch : Except String (List VocabRow)
  platformsFetch : Except String (List VocabRow)
  tagsFetch : Except String (List VocabRow)

/-- `RAWGMetadataCache.initialise`: the three `fetch_all_pages` calls
all happen *before* the three attribute assignments, so a fetch error
raises out of the `try` (and is re-raised by the `except` handler)
with the in-memory state untouched — modelled by an `Except.error`
result, the caller keeping its old state.  On success all three
categories are assigned, the result is persisted (`save_to_disk`
swallows its own errors) and the class flag `_session_refreshed` is set
to `True`. -/
def initialise (w : FetchWorld) (_s : MetaCacheState) : Except String MetaCacheState :=
  match w.genresFetch with
  | .error e => .error e
  | .ok g =>
    match w.platformsFetch with
    | .error e => .error e
    | .ok p =>
      match w.tagsFetch with
      | .error e => .error e
      | .ok t =>
        .ok { genres := g, platforms := p, tags := t, sessionRefreshed := true }

/-- Number of remote `fetch_all_pages` calls a run of `initialise`
performs: genres always, platforms only after genres succeeded, tags
only after both. -/
def fetchCalls (w : FetchWorld) : Nat :=
  1 + (match w.genresFetch with
       | .error _ => 0
       | .ok _ =>
         1 + (match w.platformsFetch with
              | .error _ => 0
              | .ok _ => 1))

/-- `RAWGMetadataCache.refresh_if_needed`: it unconditionally awaits
`self.initialise()` — the `_session_refreshed` flag is never read — and
swallows any exception (`except Exception: logger.warning(...)`).
Returns the new state together with the number of remote fetches
performed. -/
def refresh_if_needed (w : FetchWorld) (s : MetaCacheState) : MetaCacheState × Nat :=
  match initialise w s with
  | .error _ => (s, fetchCalls w)
  | .ok s' => (s', fetchCalls w)

/-! ### The query interpreter (`services/nl_query_parser.py`
`NLQueryParser.parse`) -/

/-- Leftover metadata returned beside the filter. -/
structure LeftoverMetadata where
  genres : List String
  platforms : List String
  tags : List String
deriving DecidableEq, Repr

/-- `NLQueryParser.parse` downstream of the two external text-generation
interactions: `llmGenres`/`llmPlatforms`/`llmTags` are the lists
extracted by `_run_ollama` from the free text, `oracleG`/`oracleP`
abstract the canonicalization calls inside `resolve_with_llm`, and
`today` stands for `date.today()`.

Steps: extract constraints from the raw input; resolve genres and
platforms through `resolve_with_llm` against their vocabulary and
synonym caches; strip constraint-like tags; append `"free"` when
`constraints.get("max_price") == 0`; then construct
`GameFilter(genres=..., platforms=..., tags=..., min_price=...,
max_price=..., release_date_from=..., release_date_to=...)`.
`GameFilter` declares no `genres` field and no `extra` configuration,
so pydantic's default `extra="ignore"` silently drops the `genres`
keyword; `min_price`/`max_price` are explicitly passed
(`constraints.get(...)` is `None` when the phrase is absent), and the
date fields fall back to `date(1970, 1, 1)` / `date.today()`. -/
def parse (userInput : String) (llmGenres llmPlatforms llmTags : List String)
    (vocabGenres vocabPlatforms : List (Nat × String))
    (synGenres synPlatforms : List (String × String))
    (oracleG oracleP : String → Option String) (today : PyDate) :
    Except PyError GameFilter × LeftoverMetadata :=
  let constraints := preprocess_constraints userInput
  let rg := resolve_with_llm llmGenres vocabGenres synGenres oracleG
  let rp := resolve_with_llm llmPlatforms vocabPlatforms synPlatforms oracleP
  let tags0 := filter_constraints_from_values llmTags
  let tags1 :=
    if constraints.max_price = some 0 ∧ "free" ∉ tags0 then tags0 ++ ["free"]
    else tags0
  let gf := mkGameFilter none (some constraints.min_price) (some constraints.max_price)
    rp.resolved tags1
    (some (constraints.release_date_from.getD ⟨1970, 1, 1⟩))
    (some (constraints.release_date_to.getD today))
  (gf, ⟨rg.leftovers, rp.leftovers, []⟩)

/-- Decidable equality on `Except`, so that concrete construction
results can be checked by evaluation. -/
instance {ε α : Type} [DecidableEq ε] [DecidableEq α] : DecidableEq (Except ε α) :=
  fun a b =>
    match a, b with
    | .error e, .error f =>
      if h : e = f then .isTrue (congrArg Except.error h)
      else .isFalse (fun hc => h (Except.error.inj hc))
    | .error _, .ok _ => .isFalse (fun hc => Except.noConfusion hc)
    | .ok _, .error _ => .isFalse (fun hc => Except.noConfusion hc)
    | .ok x, .ok y =>
      if h : x = y then .isTrue (congrArg Except.ok h)
      else .isFalse (fun hc => h (Except.ok.inj hc))

/-! ### Concrete fixtures used by the theorems below -/

/-- A catalog (RAWG) record with genres `("Action",)`. -/
def exCatalog : GameInfo :=
  ⟨"rawg-1", "Celeste", none, none, [], [], ["Action"], [], [], none, none⟩

/-- A storefront (Steam) record with genres `("Action", "Indie")`. -/
def exStorefront : GameInfo :=
  ⟨"steam-1", "Celeste", some "A platformer", none, [], [], ["Action", "Indie"],
   [], [], some 20, some "https://store.steampowered.com/app/1"⟩

/-- A filter with no price bounds. -/
def emptyFilter : GameFilter :=
  ⟨none, none, none, some "USD", [], [], none, none⟩

/-- The (constructible) filter with `min_price = max_price = 0`. -/
def zeroMaxFilter : GameFilter :=
  ⟨none, some 0, some 0, some "USD", [], [], none, none⟩

/-- A filter with price band `[1, 10]`. -/
def bandFilter : GameFilter :=
  ⟨none, some 1, some 10, some "USD", [], [], none, none⟩

/-- A record priced at 5. -/
def gamePriced5 : GameInfo :=
  ⟨"g5", "Five", none, none, [], [], [], [], [], some 5, none⟩

/-- A record with unknown (null) price. -/
def gameNoPrice : GameInfo :=
  ⟨"g0", "Zero", none, none, [], [], [], [], [], none, none⟩

/-- A fetch world where all three vocabulary fetches succeed. -/
def wOk : FetchWorld :=
  ⟨.ok [(1, "action", "Action")], .ok [(4, "pc", "PC")],
   .ok [(7, "singleplayer", "Singleplayer")]⟩

/-- A second successful fetch world with different genre data. -/
def wOk2 : FetchWorld :=
  ⟨.ok [(2, "indie", "Indie")], .ok [(4, "pc", "PC")],
   .ok [(7, "singleplayer", "Singleplayer")]⟩

/-- A fetch world where the platforms fetch fails. -/
def wBad : FetchWorld :=
  ⟨.ok [(1, "action", "Action")], .error "rawg 500", .ok [(7, "singleplayer", "Singleplayer")]⟩

/-- The empty initial cache state. -/
def s0 : MetaCacheState := ⟨[], [], [], false⟩

/-! ### Claim theorems -/

/-- C1: For every catalog record matched to a storefront record, the
merge block of `enrich_with_steam` takes the storefront value for each
of the ten fields exactly when that value is non-empty/non-null and
retains the catalog value otherwise; in particular storefront genres
`("Action", "Indie")` replace catalog genres `("Action",)`. -/
theorem merge_precedence_storefront_wins (game steam_game : GameInfo) :
    ((mergeFields game steam_game).name =
      if steam_game.name = "" then game.name else steam_game.name)
    ∧ ((mergeFields game steam_game).description =
      match steam_game.description with
      | none => game.description
      | some s => if s = "" then game.description else some s)
    ∧ ((mergeFields game steam_game).release_date =
      if steam_game.release_date = none then game.release_date
      else steam_game.release_date)
    ∧ ((mergeFields game steam_game).platforms =
      if steam_game.platforms = [] then game.platforms else steam_game.platforms)
    ∧ ((mergeFields game steam_game).genres =
      if steam_game.genres = [] then game.genres else steam_game.genres)
    ∧ ((mergeFields game steam_game).developers =
      if steam_game.developers = [] then game.developers else steam_game.developers)
    ∧ ((mergeFields game steam_game).publishers =
      if steam_game.publishers = [] then game.publishers else steam_game.publishers)
    ∧ ((mergeFields game steam_game).screenshots =
      if steam_game.screenshots = [] then game.screenshots else steam_game.screenshots)
    ∧ ((mergeFields game steam_game).price =
      if steam_game.price = none then game.price else steam_game.price)
    ∧ ((mergeFields game steam_game).store_url =
      if steam_game.store_url = none then game.store_url else steam_game.store_url)
    ∧ (mergeFields exCatalog exStorefront).genres = ["Action", "Indie"] := by
  refine ⟨rfl, rfl, ?_, rfl, rfl, rfl, rfl, rfl, ?_, ?_, by decide⟩
  · cases h : steam_game.release_date <;> simp [mergeFields, pyOrOpt, h]
  · cases h : steam_game.price <;> simp [mergeFields, pyOrOpt, h]
  · cases h : steam_game.store_url <;> simp [mergeFields, pyOrOpt, h]

/-- C5 (code bug): `refresh_if_needed` is *not* once-per-session — the
`_session_refreshed` flag is never consulted.  After a successful
refresh the flag is set, yet the next refresh request performs all
three remote fetches again (never zero, for any world and state) and
can overwrite the in-memory state. -/
theorem refresh_always_refetches :
    ((refresh_if_needed wOk s0).1.sessionRefreshed = true)
    ∧ ((refresh_if_needed wOk (refresh_if_needed wOk s0).1).2 = 3)
    ∧ ((refresh_if_needed wOk2 (refresh_if_needed wOk s0).1).1 ≠ (refresh_if_needed wOk s0).1)
    ∧ (∀ (w : FetchWorld) (s : MetaCacheState), 1 ≤ (refresh_if_needed w s).2) := by
  refine ⟨by decide, by decide, by decide, ?_⟩
  intro w s
  have h2 : (refresh_if_needed w s).2 = fetchCalls w := by
    cases h : initialise w s <;> simp [refresh_if_needed, h]
  rw [h2]
  simp [fetchCalls]

/-- C6: If any of the three remote vocabulary fetches fails during a
refresh, `initialise` raises before any attribute assignment: the
previous in-memory state is left exactly as it was (no category is
partially updated — `refresh_if_needed` keeps the old state wholesale)
and the error propagates out of `initialise` to its caller. -/
theorem initialise_failure_atomic (w : FetchWorld) (s : MetaCacheState)
    (h : w.genresFetch.isOk = false ∨ w.platformsFetch.isOk = false ∨
      w.tagsFetch.isOk = false) :
    (∃ e, initialise w s = .error e) ∧ (refresh_if_needed w s).1 = s := by
  have hfail : ∃ e, initialise w s = .error e := by
    cases hg : w.genresFetch with
    | error e => exact ⟨e, by simp [initialise, hg]⟩
    | ok g =>
      cases hp : w.platformsFetch with
      | error e => exact ⟨e, by simp [initialise, hg, hp]⟩
      | ok p =>
        cases ht : w.tagsFetch with
        | error e => exact ⟨e, by simp [initialise, hg, hp, ht]⟩
        | ok t => simp [hg, hp, ht, Except.isOk, Except.toBool] at h
  obtain ⟨e, he⟩ := hfail
  exact ⟨⟨e, he⟩, by simp [refresh_if_needed, he]⟩

/-- C6 witness: a platforms-fetch failure leaves the empty initial
state untouched and surfaces the error. -/
theorem initialise_failure_atomic_witness :
    (∃ e, initialise wBad s0 = .error e) ∧ (refresh_if_needed wBad s0).1 = s0 :=
  initialise_failure_atomic wBad s0 (by decide)

/-- C7 (amended): a record with null price always passes the post-merge
price filter; a record with non-null price is kept exactly when its
price lies in `[min_price or 0, max_price]` — with the caveat (forced
by the `or`-coercion `filters.max_price or float("inf")`) that a
`max_price` of exactly 0 behaves as *no* upper bound, so the clean
interval reading holds for every `max_price ≠ 0`. -/
theorem price_filter_amended (filters : GameFilter) (g : GameInfo)
    (gs : List GameInfo) :
    (g.price = none → priceKeep filters g = true)
    ∧ (filters.max_price ≠ some 0 →
        ∀ p : Rat, g.price = some p →
          (priceKeep filters g = true ↔
            (filters.min_price.getD 0 ≤ p ∧
              ∀ m, filters.max_price = some m → p ≤ m)))
    ∧ (g ∈ priceFilter filters gs ↔ g ∈ gs ∧ priceKeep filters g = true) := by
  have hmin : effectiveMin filters = filters.min_price.getD 0 := by
    cases h : filters.min_price with
    | none => simp [effectiveMin, h]
    | some v =>
      simp only [effectiveMin, h, Option.getD_some]
      split
      · rename_i hv
        exact hv.symm
      · rfl
  refine ⟨?_, ?_, ?_⟩
  · intro hp
    simp [priceKeep, hp]
  · intro hmax p hp
    have hm' : effectiveMax filters = filters.max_price := by
      cases hM : filters.max_price with
      | none => simp [effectiveMax, hM]
      | some m =>
        have hm0 : ¬ m = 0 := fun hc => hmax (by rw [hM, hc])
        simp [effectiveMax, hM, hm0]
    cases hM : filters.max_price with
    | none =>
      simp [priceKeep, hp, hmin, hm', hM]
    | some m =>
      simp [priceKeep, hp, hmin, hm', hM]
  · simp [priceFilter, List.mem_filter]

/-- C7 witness: in the band `[1, 10]`, a null-price record passes and a
record priced 5 is kept by the interval reading. -/
theorem price_filter_amended_witness :
    priceKeep bandFilter gameNoPrice = true ∧ priceKeep bandFilter gamePriced5 = true :=
  ⟨(price_filter_amended bandFilter gameNoPrice []).1 rfl,
   ((price_filter_amended bandFilter gamePriced5 []).2.1 (by decide) 5 rfl).mpr
     ⟨by decide, fun m hm => by cases hm; decide⟩⟩

/-- C7 counterexample: the claim's unrestricted interval reading fails —
`max_price = 0` (a validly constructible filter) is coerced to
`float("inf")`, so a record priced 5 is *kept* although `5 ∉ [0, 0]`. -/
theorem price_filter_zero_max_counterexample :
    mkGameFilter none (some (some 0)) (some (some 0)) [] [] none none = .ok zeroMaxFilter
    ∧ priceFilter zeroMaxFilter [gamePriced5] = [gamePriced5]
    ∧ ¬ ((0 : Rat) ≤ 5 ∧ (5 : Rat) ≤ 0) := by
  refine ⟨by decide, by decide, by decide⟩

/-- C8 (amended): `aggregate` wraps the surviving records with
`total = len(filtered_games)` only — `limit`, `page` and `total_pages`
keep their `None` defaults (the `ProviderResponse.create` helper, which
does compute `total_pages = ceil(total/limit)` for `limit > 0` and `1`
otherwise, is not used by `aggregate`). -/
theorem aggregate_response_unpaginated (filters : GameFilter) (limit page : Nat)
    (rawgGames : List GameInfo) (steamSearch : String → List GameInfo) :
    ((aggregate filters limit page rawgGames steamSearch).results =
      priceFilter filters (rawgGames.map
        (fun g => enrichWithSteam (steamSearch (normalise_title g.name)) g)))
    ∧ ((aggregate filters limit page rawgGames steamSearch).total =
      (aggregate filters limit page rawgGames steamSearch).results.length)
    ∧ ((aggregate filters limit page rawgGames steamSearch).limit = none)
    ∧ ((aggregate filters limit page rawgGames steamSearch).page = none)
    ∧ ((aggregate filters limit page rawgGames steamSearch).total_pages = none)
    ∧ (∀ (res : List GameInfo) (tot : Nat) (lim pg : Int),
        (ProviderResponse.create res tot lim pg).total_pages =
          some (if 0 < lim then pyCeilDiv tot lim.toNat else 1)) :=
  ⟨rfl, rfl, rfl, rfl, rfl, fun _ _ _ _ => rfl⟩

/-- C8 counterexample: a response actually returned by `aggregate` (one
surviving record, `limit = 10`) carries `total_pages = None`, not the
computed `ceil(total/limit) = 1` the claim requires. -/
theorem aggregate_response_counterexample :
    ((aggregate emptyFilter 10 1 [gameNoPrice] (fun _ => [])).total = 1)
    ∧ ((aggregate emptyFilter 10 1 [gameNoPrice] (fun _ => [])).total_pages = none)
    ∧ (pyCeilDiv 1 10 = 1)
    ∧ ((aggregate emptyFilter 10 1 [gameNoPrice] (fun _ => [])).total_pages ≠ some 1) := by
  refine ⟨by decide, by decide, by decide, by decide⟩

/-- C10 (code bug): constructing a `GameFilter` with `min_price`
explicitly passed as `None` — exactly what `NLQueryParser.parse` does
whenever the input has no minimum-price phrase — does not succeed: the
`non_negative` validator evaluates `None < 0`, a Python `TypeError`.
Concretely, parsing a query with no price phrase at all produces no
filter. -/
theorem min_price_none_raises :
    (∀ (q : Option String) (maxp : Option (Option Rat)) (ps ts : List String)
        (d1 d2 : Option PyDate),
        mkGameFilter q (some none) maxp ps ts d1 d2 = .error .typeError)
    ∧ (parse "cozy farming game" [] [] [] [] [] [] []
        (fun _ => none) (fun _ => none) ⟨2025, 1, 1⟩).1 = .error .typeError :=
  ⟨fun _ _ _ _ _ _ => rfl, by decide⟩

/-- Characters surviving whitespace collapse are either the inserted
single spaces or non-whitespace characters of the input. -/
theorem mem_collapseGo {c : Char} {b : Bool} {l : List Char}
    (h : c ∈ collapseGo b l) : c = ' ' ∨ (c ∈ l ∧ c.isWhitespace = false) := by
  induction l generalizing b with
  | nil => simp [collapseGo] at h
  | cons d rest ih =>
    rw [collapseGo] at h
    split at h
    · rcases ih h with h1 | ⟨h2, h3⟩
      · exact Or.inl h1
      · exact Or.inr ⟨List.mem_cons_of_mem _ h2, h3⟩
    · rename_i hd
      rw [List.mem_append] at h
      rcases h with h | h
      · have hcd : c = ' ' ∨ c = d := by
          split at h
          · rcases List.mem_cons.mp h with h1 | h1
            · exact Or.inl h1
            · exact Or.inr (by simpa using h1)
          · exact Or.inr (by simpa using h)
        rcases hcd with h1 | h1
        · exact Or.inl h1
        · subst h1
          exact Or.inr ⟨List.mem_cons_self _ _, by simpa using hd⟩
      · rcases ih h with h1 | ⟨h2, h3⟩
        · exact Or.inl h1
        · exact Or.inr ⟨List.mem_cons_of_mem _ h2, h3⟩

/-- Membership through `dropWhile`. -/
theorem mem_of_mem_dropWhile {c : Char} {p : Char → Bool} {l : List Char}
    (h : c ∈ l.dropWhile p) : c ∈ l := by
  induction l with
  | nil => simp at h
  | cons d rest ih =>
    rw [List.dropWhile_cons] at h
    by_cases hp : p d
    · simp only [hp, if_true] at h
      exact List.mem_cons_of_mem _ (ih h)
    · simp only [hp, if_false] at h
      exact h

/-- Characters of `collapseWs l` are spaces or non-whitespace
characters of `l`. -/
theorem mem_collapseWs {c : Char} {l : List Char}
    (h : c ∈ collapseWs l) : c = ' ' ∨ (c ∈ l ∧ c.isWhitespace = false) := by
  rcases mem_collapseGo h with h1 | ⟨h2, h3⟩
  · exact Or.inl h1
  · exact Or.inr ⟨mem_of_mem_dropWhile h2, h3⟩

/-- Characters after the punctuation pass are word characters or
whitespace. -/
theorem mem_punctToSpace {c : Char} {l : List Char}
    (h : c ∈ punctToSpace l) : isWordChar c = true ∨ c.isWhitespace = true := by
  rcases List.mem_map.mp h with ⟨x, _, hfx⟩
  by_cases hx : (isWordChar x || x.isWhitespace) = true
  · rw [if_pos hx] at hfx
    subst hfx
    simpa using hx
  · rw [if_neg hx] at hfx
    subst hfx
    exact Or.inr (by decide)

/-- C9 counterexample: the trailing parenthesized/":"/"-" suffixes are
*not* removed by `normalise_title` — only their punctuation is turned
into spaces, their words survive. -/
theorem normalise_title_counterexample :
    normalise_title "Game (2020)" = "game 2020"
    ∧ normalise_title "Game (2020)" ≠ "game"
    ∧ normalise_title "Metro: Last Light - Redux" = "metro last light redux" := by
  refine ⟨by decide, by decide, by decide⟩

set_option maxHeartbeats 1600000 in
/-- C9 (amended): `normalise_title` lowercases, strips accents, removes
the listed edition qualifiers at word boundaries, replaces punctuation
(parentheses, colons, dashes included) by spaces and collapses/trims
whitespace — every output character is a space or a word character —
but it does not delete the words of trailing parenthesized/":"/"-"
suffixes. -/
theorem normalise_title_amended :
    (∀ (t : String), ∀ c ∈ (normalise_title t).toList,
      c = ' ' ∨ isWordChar c = true)
    ∧ normalise_title "Pokémon" = "pokemon"
    ∧ normalise_title "DOOM Game of the Year" = "doom"
    ∧ normalise_title "Skyrim Remastered" = "skyrim"
    ∧ normalise_title "Half-Life 2: GOTY" = "half life 2"
    ∧ normalise_title "Game (2020)" = "game 2020" := by
  refine ⟨?_, by decide, by decide, by decide, by decide, by decide⟩
  intro t c hc
  simp only [normalise_title, String.toList] at hc
  rcases mem_collapseWs hc with h1 | ⟨h2, h3⟩
  · exact Or.inl h1
  · rcases mem_punctToSpace h2 with h4 | h5
    · exact Or.inr h4
    · rw [h5] at h3
      cases h3

/-- C9 witness: the universal character-class property instantiated on
a concrete title and output character. -/
theorem normalise_title_amended_witness :
    'g' = ' ' ∨ isWordChar 'g' = true :=
  normalise_title_amended.1 "Game (2020)" 'g' (by decide)

/-- Updating a Python dict and reading the same key back. -/
theorem dictGet_dictSet_self (d : List (String × String)) (k v : String) :
    dictGet (dictSet d k v) k = some v := by
  induction d with
  | nil => simp [dictSet, dictGet]
  | cons p rest ih =>
    obtain ⟨k', v'⟩ := p
    by_cases h : k' = k
    · simp [dictSet, dictGet, h]
    · simp [dictSet, dictGet, h, ih]

/-- A one-entry genres vocabulary. -/
def vocabAction : List (Nat × String) := [(5, "Action")]

/-- A genres vocabulary without any fuzzy neighbour of "roguelike". -/
def vocabShooter : List (Nat × String) := [(5, "Shooter")]

/-- A genres vocabulary for the end-to-end scenario. -/
def vocabRPG : List (Nat × String) := [(5, "RPG")]

/-- A platforms vocabulary for the end-to-end scenario. -/
def vocabPC : List (Nat × String) := [(4, "PC")]

/-- An external canonicalization model that never answers. -/
def oracleNone : String → Option String := fun _ => none

/-- An external model canonicalizing the whitespace-padded raw term. -/
def oracleRoguePad : String → Option String :=
  fun v => if v = " Roguelike " then some "Shooter" else none

/-- An external model canonicalizing the plain term. -/
def oracleRogue : String → Option String :=
  fun v => if v = "roguelike" then some "Rogue-like" else none

/-- A fixed `date.today()`. -/
def today0 : PyDate := ⟨2025, 1, 1⟩

/-- C3: per input term (here: a one-term invocation), `resolve_with_llm`
applies the steps in order on `key = val.lower().strip()`: (1) an exact
hit in the category's lowercased vocabulary-name dict resolves to the
canonical name with no batching and no external call; (2) otherwise a
truthy synonym-cache hit resolves to the cached canonical; (3) otherwise
a fuzzy match at cutoff 0.85 resolves to the vocabulary entry of the
best match; (4) only a term failing all three is batched to the
external canonicalization step. -/
theorem resolver_resolution_order (vocab : List (Nat × String))
    (syn : List (String × String)) (oracle : String → Option String) (val : String) :
    (∀ c, dictGet (sourceDict vocab) (pyStrip (pyLower val)) = some c →
        (resolve_with_llm [val] vocab syn oracle).resolved = [c]
        ∧ (resolve_with_llm [val] vocab syn oracle).llmBatch = []
        ∧ (resolve_with_llm [val] vocab syn oracle).llmCalled = false)
    ∧ (dictGet (sourceDict vocab) (pyStrip (pyLower val)) = none →
        ∀ c, llmCacheResolve syn (pyStrip (pyLower val)) = some c → c ≠ "" →
          (resolve_with_llm [val] vocab syn oracle).resolved = [c]
          ∧ (resolve_with_llm [val] vocab syn oracle).llmBatch = []
          ∧ (resolve_with_llm [val] vocab syn oracle).llmCalled = false)
    ∧ (dictGet (sourceDict vocab) (pyStrip (pyLower val)) = none →
        (llmCacheResolve syn (pyStrip (pyLower val))).getD "" = "" →
        ∀ m, getCloseMatches1 (pyStrip (pyLower val)) (dictKeys (sourceDict vocab))
            (mkRat 17 20) = some m →
          (resolve_with_llm [val] vocab syn oracle).resolved =
            [(dictGet (sourceDict vocab) m).getD ""]
          ∧ (resolve_with_llm [val] vocab syn oracle).llmBatch = []
          ∧ (resolve_with_llm [val] vocab syn oracle).llmCalled = false)
    ∧ (dictGet (sourceDict vocab) (pyStrip (pyLower val)) = none →
        (llmCacheResolve syn (pyStrip (pyLower val))).getD "" = "" →
        getCloseMatches1 (pyStrip (pyLower val)) (dictKeys (sourceDict vocab))
          (mkRat 17 20) = none →
        (resolve_with_llm [val] vocab syn oracle).llmBatch = [val]) := by
  refine ⟨?_, ?_, ?_, ?_⟩
  · intro c h
    simp [resolve_with_llm, h]
  · intro h c hcache hne
    simp [resolve_with_llm, h, hcache, hne]
  · intro h hcache m hm
    cases hc : llmCacheResolve syn (pyStrip (pyLower val)) with
    | none => simp [resolve_with_llm, h, hc, hm]
    | some x =>
      rw [hc] at hcache
      simp only [Option.getD_some] at hcache
      subst hcache
      simp [resolve_with_llm, h, hc, hm]
  · intro h hcache hfuzz
    cases hc : llmCacheResolve syn (pyStrip (pyLower val)) with
    | none => simp [resolve_with_llm, h, hc, hfuzz]
    | some x =>
      rw [hc] at hcache
      simp only [Option.getD_some] at hcache
      subst hcache
      simp [resolve_with_llm, h, hc, hfuzz]

/-- C3 witness: the exact-match step on a case/whitespace-variant of a
vocabulary name, resolved with no batching and no external call. -/
theorem resolver_resolution_order_witness :
    (resolve_with_llm [" ACTION "] vocabAction [] oracleNone).resolved = ["Action"]
    ∧ (resolve_with_llm [" ACTION "] vocabAction [] oracleNone).llmBatch = []
    ∧ (resolve_with_llm [" ACTION "] vocabAction [] oracleNone).llmCalled = false :=
  (resolver_resolution_order vocabAction [] oracleNone " ACTION ").1 "Action" (by decide)

set_option maxRecDepth 4000 in
/-- C4 counterexample: for a raw term with surrounding whitespace, the
write-through keys the synonym cache on `val.lower()` (unstripped) while
lookups use `val.lower().strip()`, so resolving the same term twice
misses the cache and issues a second external canonicalization call. -/
theorem synonym_writethrough_counterexample :
    ((resolve_with_llm [" Roguelike "] vocabShooter [] oracleRoguePad).llmCalled = true)
    ∧ ((resolve_with_llm [" Roguelike "] vocabShooter [] oracleRoguePad).syn =
        [(" roguelike ", "Shooter")])
    ∧ ((resolve_with_llm [" Roguelike "] vocabShooter
        (resolve_with_llm [" Roguelike "] vocabShooter [] oracleRoguePad).syn
        oracleRoguePad).llmCalled = true)
    ∧ ((resolve_with_llm [" Roguelike "] vocabShooter
        (resolve_with_llm [" Roguelike "] vocabShooter [] oracleRoguePad).syn
        oracleRoguePad).llmBatch = [" Roguelike "]) := by
  refine ⟨by decide, by decide, by decide, by decide⟩

/-- C4 (amended): for a term whose lowercasing is already stripped (no
surrounding whitespace) and idempotent, failing steps 1–3 and
successfully canonicalized (non-empty canonical) by the external call:
the learned mapping is written into the synonym cache synchronously
before the first invocation returns, and a second invocation of
`resolve_with_llm` on the same term hits the synonym cache — no batch,
no external call — so the two invocations together issue exactly one
external canonicalization call. -/
theorem synonym_writethrough_amended (vocab : List (Nat × String))
    (syn : List (String × String)) (oracle : String → Option String) (val c : String)
    (h0 : pyLower (pyLower val) = pyLower val)
    (h1 : pyStrip (pyLower val) = pyLower val)
    (h2 : dictGet (sourceDict vocab) (pyLower val) = none)
    (h3 : (llmCacheResolve syn (pyLower val)).getD "" = "")
    (h4 : getCloseMatches1 (pyLower val) (dictKeys (sourceDict vocab)) (mkRat 17 20) = none)
    (h5 : hasConstraintWord val = false)
    (h6 : oracle val = some c)
    (h7 : c ≠ "") :
    ((resolve_with_llm [val] vocab syn oracle).llmBatch = [val])
    ∧ ((resolve_with_llm [val] vocab syn oracle).llmCalled = true)
    ∧ ((resolve_with_llm [val] vocab syn oracle).resolved = [c])
    ∧ ((resolve_with_llm [val] vocab syn oracle).syn = dictSet syn (pyLower val) c)
    ∧ ((resolve_with_llm [val] vocab
        (resolve_with_llm [val] vocab syn oracle).syn oracle).llmCalled = false)
    ∧ ((resolve_with_llm [val] vocab
        (resolve_with_llm [val] vocab syn oracle).syn oracle).llmBatch = [])
    ∧ ((resolve_with_llm [val] vocab
        (resolve_with_llm [val] vocab syn oracle).syn oracle).resolved = [c]) := by
  have hcache : llmCacheResolve syn (pyLower val) = none ∨
      llmCacheResolve syn (pyLower val) = some "" := by
    cases hc : llmCacheResolve syn (pyLower val) with
    | none => exact Or.inl rfl
    | some x =>
      rw [hc] at h3
      simp only [Option.getD_some] at h3
      subst h3
      exact Or.inr rfl
  have e1 : resolve_with_llm [val] vocab syn oracle =
      ⟨[c], [], dictSet syn (pyLower val) c, [val], true⟩ := by
    have hfilter : filter_constraints_from_values [val] = [val] := by
      simp [filter_constraints_from_values, h5]
    rcases hcache with hc | hc <;>
      simp [resolve_with_llm, h1, h2, hc, h4, callLLMForCanonical, hfilter, h6,
        llmResultsGet, llmCacheAddMapping]
  have e2 : resolve_with_llm [val] vocab (dictSet syn (pyLower val) c) oracle =
      ⟨[c], [], dictSet syn (pyLower val) c, [], false⟩ := by
    have hhit : llmCacheResolve (dictSet syn (pyLower val) c) (pyLower val) = some c := by
      rw [llmCacheResolve, h0]
      exact dictGet_dictSet_self syn (pyLower val) c
    simp [resolve_with_llm, h1, h2, hhit, h7]
  rw [e1]
  rw [e2]
  exact ⟨rfl, rfl, rfl, rfl, rfl, rfl, rfl⟩

set_option maxRecDepth 4000 in
/-- C4 witness: a plain unknown term, canonicalized once; the second
resolution is served from the synonym cache. -/
theorem synonym_writethrough_amended_witness :
    ((resolve_with_llm ["roguelike"] vocabShooter [] oracleRogue).llmBatch = ["roguelike"])
    ∧ ((resolve_with_llm ["roguelike"] vocabShooter [] oracleRogue).llmCalled = true)
    ∧ ((resolve_with_llm ["roguelike"] vocabShooter [] oracleRogue).resolved = ["Rogue-like"])
    ∧ ((resolve_with_llm ["roguelike"] vocabShooter [] oracleRogue).syn =
        dictSet [] (pyLower "roguelike") "Rogue-like")
    ∧ ((resolve_with_llm ["roguelike"] vocabShooter
        (resolve_with_llm ["roguelike"] vocabShooter [] oracleRogue).syn
        oracleRogue).llmCalled = false)
    ∧ ((resolve_with_llm ["roguelike"] vocabShooter
        (resolve_with_llm ["roguelike"] vocabShooter [] oracleRogue).syn
        oracleRogue).llmBatch = [])
    ∧ ((resolve_with_llm ["roguelike"] vocabShooter
        (resolve_with_llm ["roguelike"] vocabShooter [] oracleRogue).syn
        oracleRogue).resolved = ["Rogue-like"]) :=
  synonym_writethrough_amended vocabShooter [] oracleRogue "roguelike" "Rogue-like"
    (by decide) (by decide) (by decide) (by decide) (by decide) (by decide)
    (by decide) (by decide)

/-- C2 counterexample: for the cited scenario input, `parse` produces no
structured filter at all — `min_price` is explicitly `None` and the
`non_negative` validator raises `TypeError` — and even on a variant
whose construction succeeds, the successfully resolved genres make no
difference to the resulting filter (the `genres=` keyword is dropped by
pydantic `extra="ignore"`; `GameFilter` has no genres field). -/
theorem structured_filter_genres_counterexample :
    ((parse "multiplayer RPG on PC under $20 after 2015" ["RPG"] ["PC"] ["multiplayer"]
      vocabRPG vocabPC [] [] oracleNone oracleNone today0).1 = .error .typeError)
    ∧ ((resolve_with_llm ["RPG"] vocabRPG [] oracleNone).resolved = ["RPG"])
    ∧ ((parse "multiplayer RPG on PC between $5 and $20 after 2015" ["RPG"] ["PC"]
        ["multiplayer"] vocabRPG vocabPC [] [] oracleNone oracleNone today0).1
      = (parse "multiplayer RPG on PC between $5 and $20 after 2015" [] ["PC"]
        ["multiplayer"] vocabRPG vocabPC [] [] oracleNone oracleNone today0).1) := by
  refine ⟨by decide, by decide, by decide⟩

/-- C2 (amended): the structured filter built by the Query Interpreter
carries resolved platform names and tag names (normalized set-valued
fields) but no genre names — `GameFilter` has no genres field and the
filter is identical whatever the genre inputs, vocabularies, caches or
canonicalization answers were.  On the both-bounds variant of the
scenario input the filter carries `min_price=5`, `max_price=20`,
`release_date_from=2015-01-01`, platforms `["pc"]` and tags
`["multiplayer"]` — and nothing holding a resolved "RPG". -/
theorem structured_filter_genres_dropped :
    (∀ (u : String) (g1 g2 p t : List String) (vg1 vg2 vp : List (Nat × String))
        (sg1 sg2 sp : List (String × String)) (og1 og2 op : String → Option String)
        (today : PyDate),
        (parse u g1 p t vg1 vp sg1 sp og1 op today).1 =
          (parse u g2 p t vg2 vp sg2 sp og2 op today).1)
    ∧ ((parse "multiplayer RPG on PC between $5 and $20 after 2015" ["RPG"] ["PC"]
        ["multiplayer"] vocabRPG vocabPC [] [] oracleNone oracleNone today0).1
      = .ok ⟨none, some 5, some 20, some "USD", ["pc"], ["multiplayer"],
          some ⟨2015, 1, 1⟩, some today0⟩) := by
  refine ⟨?_, by decide⟩
  intro u g1 g2 p t vg1 vg2 vp sg1 sg2 sp og1 og2 op today
  rfl

end GameRec
